import Mathlib

/- Verification of the grid-file loader (class GridFile): scalar/vector accessors,
   the 2-D/3-D field loader with guard-cell reconciliation and boundary
   extrapolation, and the real-space and spectral 3-D read paths.

   Machine integers of the source are modelled as Int (no arithmetic in the
   loader can overflow 32-bit in practice, and no claim is about overflow);
   BoutReal (double) is modelled as the real numbers, since the loader never
   computes with field values outside the spectral synthesis; fallible calls
   return Except or Option; ASSERT1 checks are modelled as fatal (CHECK >= 1,
   the configuration the specification describes: a failed invariant raises). -/

/-- BoutReal (a C double) modelled as a real number. -/
abbrev BoutReal := ℝ

/-- A Field3D handle: value at local indices (x, y, z), modelled as a total
function; C++ reads/writes only touch in-range indices. A Field2D is the
degenerate case whose z-extent (getNz) is 1. -/
abbrev Field3 := Int → Int → Int → BoutReal

/-- The global-origin read cursor of the storage backend (x, y, z). -/
abbrev Origin := Int × Int × Int

/-- The canonical origin: setGlobalOrigin() with no arguments resets to (0,0,0). -/
def originZero : Origin := (0, 0, 0)

/-- The slice of the Mesh / decomposition descriptor consumed by GridFile. -/
structure Mesh where
  LocalNx : Int
  LocalNy : Int
  LocalNz : Int
  GlobalNx : Int
  GlobalNy : Int
  xstart : Int
  xend : Int
  ystart : Int
  yend : Int
  OffsetX : Int
  OffsetY : Int
  numberOfXPoints : Int

/-- The storage backend (DataFormat) as consumed by GridFile: validity flag,
size query, scalar/attribute reads, and cursor-addressed block reads.
read2d x y name n is file->read(dest, name, 1, n) after setGlobalOrigin(x,y,0)
(n values along y); read3d x y name n is file->read(dest, name, 1, 1, n) after
setGlobalOrigin(x,y) (n values along z). readVecInt/readVecReal c name n report
whether file->read(&var[0], name, n) succeeds with the cursor at c. -/
structure GridDataFile where
  is_valid : Bool
  getSize : String → List Int
  readScalar : String → Option BoutReal
  readInt : String → Option Int
  getAttr : String → String → Option String
  read2d : Int → Int → String → Int → Option (Int → BoutReal)
  read3d : Int → Int → String → Int → Option (Int → BoutReal)
  readVecInt : Origin → String → Int → Bool
  readVecReal : Origin → String → Int → Bool

/-- GridFile::hasVar: false on an unreadable backend, else tests the
variable's reported size for non-emptiness. -/
def hasVar (f : GridDataFile) (name : String) : Bool :=
  if f.is_valid = false then false
  else decide ((f.getSize name).length ≠ 0)

/-- GridFile::get(Mesh*, std::string&, name): throws when the backend is
invalid; otherwise reads the string as an attribute, returning found=false
(and sval set to the empty string) when the attribute is absent. -/
def getString (f : GridDataFile) (name : String) : Except String (String × Bool) :=
  if f.is_valid = false then .error "File cannot be read"
  else
    match f.getAttr "" name with
    | some sval => .ok (sval, true)
    | none => .ok ("", false)

/-- GridFile::get(Mesh*, int&, name): throws when the backend is invalid;
otherwise found=false on a failed read (ival keeps its previous value). -/
def getInt (f : GridDataFile) (ival : Int) (name : String) : Except String (Int × Bool) :=
  if f.is_valid = false then .error "File cannot be read"
  else
    match f.readInt name with
    | some v => .ok (v, true)
    | none => .ok (ival, false)

/-- GridFile::get(Mesh*, BoutReal&, name): throws when the backend is invalid;
otherwise found=false on a failed read (rval keeps its previous value). -/
def getReal (f : GridDataFile) (rval : BoutReal) (name : String) :
    Except String (BoutReal × Bool) :=
  if f.is_valid = false then .error "File cannot be read"
  else
    match f.readScalar name with
    | some v => .ok (v, true)
    | none => .ok (rval, false)

/-- GridFile::get(Mesh*, std::vector<int>&, name, len, offset): returns the
found flag together with the final position of the backend's global-origin
cursor (c0 is the cursor position on entry). The code sets the cursor to
(offset,0,0), reads len values, and resets the cursor only after a
successful read. -/
def getVectorInt (f : GridDataFile) (c0 : Origin) (name : String) (len offset : Int) :
    Bool × Origin :=
  if f.is_valid = false then (false, c0)
  else if f.readVecInt (offset, 0, 0) name len = false then (false, (offset, 0, 0))
  else (true, originZero)

/-- GridFile::get(Mesh*, std::vector<BoutReal>&, name, len, offset): identical
control flow to the integer version. -/
def getVectorReal (f : GridDataFile) (c0 : Origin) (name : String) (len offset : Int) :
    Bool × Origin :=
  if f.is_valid = false then (false, c0)
  else if f.readVecReal (offset, 0, 0) name len = false then (false, (offset, 0, 0))
  else (true, originZero)

/-- The y read offset computed at the top of GridFile::getField (the local
variable ys): starts from OffsetY; when the mesh has more than one X-point
the code asserts numberOfXPoints == 2 (double-null) and, if the subdomain's
y-offset has passed the internal target (OffsetY >= ny_inner), shifts the
read offset by the two extra y-guard bands stored in the file. -/
def computeYs (numberOfXPoints OffsetY ny_inner grid_yguards : Int) : Except String Int :=
  if 1 < numberOfXPoints then
    if numberOfXPoints = 2 then
      if ny_inner ≤ OffsetY then .ok (OffsetY + 2 * grid_yguards) else .ok OffsetY
    else .error "ASSERT1 failed: numberOfXPoints == 2"
  else .ok OffsetY

/-- Number of x-boundary guard cells present in the file, as getField computes
it from the variable's stored x-extent fd0: (fd0 - (GlobalNx - 2*mxg)) / 2
(C++ int division). -/
def grid_xguardsOf (fd0 GlobalNx mxg : Int) : Int :=
  (fd0 - (GlobalNx - 2 * mxg)) / 2

/-- The x-direction read window of GridFile::getField: returns
(nx_to_read, xd) or the fatal error raised. Mirrors the source: the rounding
ASSERT1, then the branch grid_xguards >= 0 (read LocalNx columns, destination
offset grid_xguards - mxg, asserted non-negative), then the dead branch
grid_xguards == 0 (read LocalNx - 2*mxg columns at destination offset mxg),
else a BoutException. -/
def xWindow (fd0 GlobalNx mxg LocalNx : Int) : Except String (Int × Int) :=
  let grid_xguards := grid_xguardsOf fd0 GlobalNx mxg
  if (fd0 - (GlobalNx - 2 * mxg)) % 2 ≠ 0 then .error "ASSERT1 failed: no rounding in grid_xguards"
  else if 0 ≤ grid_xguards then
    if 0 ≤ grid_xguards - mxg then .ok (LocalNx, grid_xguards - mxg)
    else .error "ASSERT1 failed: xd >= 0"
  else if grid_xguards = 0 then .ok (LocalNx - 2 * mxg, mxg)
  else .error "Could not read from file: incompatible number of x-boundary guard cells"

/-- The y-direction read window of GridFile::getField: returns
(ny_to_read, yd) or the fatal error raised. grid_yguards comes from the
y_boundary_guards entry read in the GridFile constructor; the variable's
stored y-extent fd1 is only checked for consistency against it:
fd1 == GlobalNy - 2*myg + grid_yguards when the file includes y-guards, and
fd1 == GlobalNy - 2*myg when it stores none. -/
def yWindow (grid_yguards fd1 GlobalNy myg LocalNy : Int) : Except String (Int × Int) :=
  if 0 < grid_yguards then
    if fd1 = GlobalNy - 2 * myg + grid_yguards then
      if 0 ≤ grid_yguards - myg then .ok (LocalNy, grid_yguards - myg)
      else .error "ASSERT1 failed: yd >= 0"
    else .error "ASSERT1 failed: field_dimensions with y-guards"
  else if grid_yguards = 0 then
    if fd1 = GlobalNy - 2 * myg then .ok (LocalNy - 2 * myg, myg)
    else .error "ASSERT1 failed: field_dimensions without y-guards"
  else .error "Could not read from file: incompatible number of y-boundary guard cells"

/-- Decidable success test for an Except value. -/
def isOkE {α : Type} (e : Except String α) : Bool :=
  match e with
  | .ok _ => true
  | .error _ => false

/-- A backend that reports itself unreadable (is_valid() false). -/
def invalidFile : GridDataFile where
  is_valid := false
  getSize := fun _ => []
  readScalar := fun _ => none
  readInt := fun _ => none
  getAttr := fun _ _ => none
  read2d := fun _ _ _ _ => none
  read3d := fun _ _ _ _ => none
  readVecInt := fun _ _ _ => false
  readVecReal := fun _ _ _ => false

/-- A readable backend on which every read nevertheless fails. -/
def failingReadFile : GridDataFile where
  is_valid := true
  getSize := fun _ => []
  readScalar := fun _ => none
  readInt := fun _ => none
  getAttr := fun _ _ => none
  read2d := fun _ _ _ _ => none
  read3d := fun _ _ _ _ => none
  readVecInt := fun _ _ _ => false
  readVecReal := fun _ _ _ => false

/-- A readable backend whose vector reads succeed. -/
def vecOkFile : GridDataFile where
  is_valid := true
  getSize := fun _ => [1]
  readScalar := fun _ => none
  readInt := fun _ => none
  getAttr := fun _ _ => none
  read2d := fun _ _ _ _ => none
  read3d := fun _ _ _ _ => none
  readVecInt := fun _ _ _ => true
  readVecReal := fun _ _ _ => true

/-- Update performed by file->read(dest, name, 1, 1, len) into &var(px, py, 0):
len values deposited along z at column (px, py). -/
def writeRow (var : Field3) (px py len : Int) (r : Int → BoutReal) : Field3 :=
  fun a b c => if a = px ∧ b = py ∧ 0 ≤ c ∧ c < len then r c else var a b c

/-- Inner y-loop shared by the 3-D readers: for jy in [jy0, jy0 + n), obtain
the z-row at global (jx, jy) and deposit it at column (jx + dx, jy + dy);
none as soon as a row fails. -/
def rowLoopY (rowOut : Int → Int → Option (Int → BoutReal)) (len dx dy jx : Int) :
    Int → Nat → Field3 → Option Field3
  | _, 0, var => some var
  | jy, Nat.succ n, var =>
    match rowOut jx jy with
    | none => none
    | some r => rowLoopY rowOut len dx dy jx (jy + 1) n (writeRow var (jx + dx) (jy + dy) len r)

/-- Outer x-loop shared by the 3-D readers. -/
def rowLoopX (rowOut : Int → Int → Option (Int → BoutReal)) (len dx dy yread : Int)
    (ysize : Nat) : Int → Nat → Field3 → Option Field3
  | _, 0, var => some var
  | jx, Nat.succ n, var =>
    match rowLoopY rowOut len dx dy jx yread ysize var with
    | none => none
    | some var2 => rowLoopX rowOut len dx dy yread ysize (jx + 1) n var2

/-- GridFile::readgrid_3dvar_real: reads a 3-D variable directly, without any
processing: argument sanity check, the stored dimensionality must be 3, then
one z-row of length size[2] per (x, y) point of the window. Returns none
where the source returns false. -/
def readgrid_3dvar_real (f : GridDataFile) (name : String)
    (yread ydest ysize xread xdest xsize : Int) (var : Field3) : Option Field3 :=
  if yread < 0 ∨ ydest < 0 ∨ ysize < 0 ∨ xread < 0 ∨ xdest < 0 ∨ xsize < 0 then none
  else
    let size := f.getSize name
    if size.length ≠ 3 then none
    else
      rowLoopX (fun jx jy => f.read3d jx jy name (size.getD 2 0)) (size.getD 2 0)
        (xdest - xread) (ydest - yread) yread ysize.toNat xread xsize.toNat var

/-- Modelled from the spec: ROUND (utils.hxx, not under src/), applied to
TWOPI / zlength — zperiod is the nearest integer to 2*pi over the domain
length in the periodic coordinate. -/
noncomputable def zperiodOf (zlength : ℝ) : Int :=
  round (2 * Real.pi / zlength)

/-- One entry of the complex spectrum assembled by readgrid_3dvar_fft from a
stored row zdata in the format DC, r1, i1, r2, i2, ...: index 0 holds the DC
value; index i holds the stored (real, imaginary) pair of physical mode
number i*zperiod when that mode is at most maxmode, else zero. -/
def buildSpectrum (zdata : Int → BoutReal) (maxmode zperiod : Int) (i : Int) : ℂ :=
  if i = 0 then ((zdata 0 : ℝ) : ℂ)
  else if i * zperiod ≤ maxmode then
    ⟨zdata (2 * (i * zperiod) - 1), zdata (2 * (i * zperiod))⟩
  else 0

/-- The Array<dcomplex> fdata of readgrid_3dvar_fft: ncz/2 + 1 complex
coefficients for the positive frequencies, entry i given by buildSpectrum. -/
def fdataList (zdata : Int → BoutReal) (maxmode zperiod ncz : Int) : List ℂ :=
  (List.range (ncz / 2 + 1).toNat).map fun i : ℕ =>
    buildSpectrum zdata maxmode zperiod (i : Int)

/-- Modelled from the spec: irfft (fft.hxx, not under src/) — the inverse
discrete Fourier transform of a truncated real-FFT spectrum: sample j of the
reconstructed ncz-point real sequence, synthesised from the DC coefficient
and the stored positive-frequency harmonics (each counted twice except DC
and the Nyquist mode, which are their own conjugates). -/
noncomputable def irfftSpec (fdata : List ℂ) (ncz j : Int) : ℝ :=
  ∑ i ∈ Finset.range fdata.length,
    (if i = 0 ∨ (i : Int) * 2 = ncz then (1 : ℝ) else 2) *
      (fdata.getD i 0 * Complex.exp (2 * Real.pi * Complex.I * i * j / ncz)).re

/-- GridFile::readgrid_3dvar_fft: reads a 3-D variable stored as toroidal FFT
coefficients: argument sanity check, the stored dimensionality must be 3,
maxmode = (size[2] - 1)/2, zperiod from the mesh's periodic-coordinate domain
length, then per (x, y) row the stored coefficients are loaded into the
complex spectrum and inverse-transformed into ncz = LocalNz real samples
written at the destination column. -/
noncomputable def readgrid_3dvar_fft (m : Mesh) (zlength : ℝ) (f : GridDataFile)
    (name : String) (yread ydest ysize xread xdest xsize : Int) (var : Field3) :
    Option Field3 :=
  if yread < 0 ∨ ydest < 0 ∨ ysize < 0 ∨ xread < 0 ∨ xdest < 0 ∨ xsize < 0 then none
  else
    let size := f.getSize name
    if size.length ≠ 3 then none
    else
      let maxmode := (size.getD 2 0 - 1) / 2
      let ncz := m.LocalNz
      let zperiod := zperiodOf zlength
      rowLoopX
        (fun jx jy => (f.read3d jx jy name (size.getD 2 0)).map
          (fun zdata j => irfftSpec (fdataList zdata maxmode zperiod ncz) ncz j))
        ncz (xdest - xread) (ydest - yread) yread ysize.toNat xread xsize.toNat var

/-- GridFile::readField(..., Field3D&): dispatch between the real-space and
spectral readers. When the file defines "nz" the stored z-extent must equal
LocalNz (else a fatal BoutException) and the data is read in real space;
otherwise FFT format is assumed. A failed read raises. -/
noncomputable def readField3D (m : Mesh) (zlength : ℝ) (f : GridDataFile) (name : String)
    (size : List Int) (ys yd ny_to_read xs xd nx_to_read : Int) (var : Field3) :
    Except String Field3 :=
  if hasVar f "nz" = true then
    if size.getD 2 0 ≠ m.LocalNz then .error "3D variable has incorrect size"
    else
      match readgrid_3dvar_real f name ys yd ny_to_read xs xd nx_to_read var with
      | none => .error "WARNING: Could not read from grid. Setting to zero"
      | some v => .ok v
  else
    match readgrid_3dvar_fft m zlength f name ys yd ny_to_read xs xd nx_to_read var with
    | none => .error "WARNING: Could not read from grid. Setting to zero"
    | some v => .ok v

/-- The x-boundary extrapolation loops at the end of getField, applied when
the file excluded x-guard data: the first loop copies var(xstart, y, z) to
every x below xstart, the second copies var(xend, y, z) to every x above
xend, for y in [0, LocalNy) and z in [0, getNz). Each loop never overwrites
its own source plane, so it acts pointwise; the two loops run in sequence. -/
def xExtrap (m : Mesh) (nz : Int) (v : Field3) : Field3 :=
  let low : Field3 := fun x y z =>
    if 0 ≤ x ∧ x < m.xstart ∧ 0 ≤ y ∧ y < m.LocalNy ∧ 0 ≤ z ∧ z < nz
    then v m.xstart y z else v x y z
  fun x y z =>
    if m.xend < x ∧ x < m.LocalNx ∧ 0 ≤ y ∧ y < m.LocalNy ∧ 0 ≤ z ∧ z < nz
    then low m.xend y z else low x y z

/-- The y-boundary extrapolation loops at the end of getField, applied when
grid_yguards is zero: per x in [0, LocalNx), copy var(x, ystart, z) below
ystart and then var(x, yend, z) above yend. -/
def yExtrap (m : Mesh) (nz : Int) (v : Field3) : Field3 :=
  let low : Field3 := fun x y z =>
    if 0 ≤ x ∧ x < m.LocalNx ∧ 0 ≤ y ∧ y < m.ystart ∧ 0 ≤ z ∧ z < nz
    then v x m.ystart z else v x y z
  fun x y z =>
    if 0 ≤ x ∧ x < m.LocalNx ∧ m.yend < y ∧ y < m.LocalNy ∧ 0 ≤ z ∧ z < nz
    then low x m.yend z else low x y z

/-- The body of the templated GridFile::getField, generic over the
instantiation: nz is var.getNz() (1 for a Field2D target, LocalNz for
Field3D); is2D tells the 2-D target apart (3-D data is tolerated with a
warning only there); var0 is the caller's handle after allocate(); readF is
the readField overload resolved for the target, taking
ys yd ny_to_read xs xd nx_to_read and the handle. Returns the found flag and
the filled handle, or the fatal BoutException raised. -/
def getFieldCore (m : Mesh) (f : GridDataFile) (grid_yguards ny_inner : Int)
    (name : String) (defv : BoutReal) (nz : Int) (is2D : Bool) (var0 : Field3)
    (readF : Int → Int → Int → Int → Int → Int → Field3 → Except String Field3) :
    Except String (Bool × Field3) :=
  if f.is_valid = false then .error "Could not read from file: File cannot be read"
  else
    let size := f.getSize name
    if size.length = 0 then .ok (false, fun _ _ _ => defv)
    else if size.length = 1 then
      if size.getD 0 0 ≠ 1 then .error "Expecting a 2D variable but it is 1D"
      else
        match f.readScalar name with
        | none => .error "Could not read 0D variable"
        | some rval => .ok (true, fun _ _ _ => rval)
    else if size.length = 3 ∧ is2D = true then .ok (false, fun _ _ _ => defv)
    else if 4 ≤ size.length then .ok (false, fun _ _ _ => defv)
    else
      if (m.LocalNx - (m.xend - m.xstart + 1)) % 2 ≠ 0 then
        .error "ASSERT1 failed: even x-guard width"
      else if (m.LocalNy - (m.yend - m.ystart + 1)) % 2 ≠ 0 then
        .error "ASSERT1 failed: even y-guard width"
      else
        let mxg := (m.LocalNx - (m.xend - m.xstart + 1)) / 2
        let myg := (m.LocalNy - (m.yend - m.ystart + 1)) / 2
        match computeYs m.numberOfXPoints m.OffsetY ny_inner grid_yguards with
        | .error e => .error e
        | .ok ys =>
          match xWindow (size.getD 0 0) m.GlobalNx mxg m.LocalNx with
          | .error e => .error e
          | .ok (nx_to_read, xd) =>
            match yWindow grid_yguards (size.getD 1 0) m.GlobalNy myg m.LocalNy with
            | .error e => .error e
            | .ok (ny_to_read, yd) =>
              match readF ys yd ny_to_read m.OffsetX xd nx_to_read var0 with
              | .error e => .error e
              | .ok v1 =>
                let v2 :=
                  if size.getD 0 0 = m.GlobalNx - 2 * mxg then xExtrap m nz v1 else v1
                let v3 := if grid_yguards = 0 then yExtrap m nz v2 else v2
                .ok (true, v3)

/-- Single-column update of the 2-D readField: file->read(&var(px, yd), name,
1, ny) deposits ny values along y at x = px; a Field2D cell is z-independent,
so the value is seen at every z. -/
def writeCol (var : Field3) (px yd ny : Int) (r : Int → BoutReal) : Field3 :=
  fun a b c => if a = px ∧ yd ≤ b ∧ b < yd + ny then r (b - yd) else var a b c

/-- Column loop of GridFile::readField(..., Field2D&): a failed read raises
the fatal "Could not fetch data" BoutException. -/
def colLoopX (colOut : Int → Option (Int → BoutReal)) (ny yd dx : Int) :
    Int → Nat → Field3 → Except String Field3
  | _, 0, var => .ok var
  | x, Nat.succ n, var =>
    match colOut x with
    | none => .error "Could not fetch data"
    | some r => colLoopX colOut ny yd dx (x + 1) n (writeCol var (x + dx) yd ny r)

/-- GridFile::readField(..., Field2D&): reads nx_to_read columns of
ny_to_read y-values each, starting at global (xs, ys), depositing from local
(xd, yd). -/
def readField2D (f : GridDataFile) (name : String)
    (ys yd ny_to_read xs xd nx_to_read : Int) (var : Field3) : Except String Field3 :=
  colLoopX (fun x => f.read2d x ys name ny_to_read) ny_to_read yd (xd - xs) xs
    nx_to_read.toNat var

/-- The Field2D instantiation of GridFile::getField (getNz() = 1). -/
def getField2D (m : Mesh) (f : GridDataFile) (grid_yguards ny_inner : Int)
    (name : String) (defv : BoutReal) (var0 : Field3) : Except String (Bool × Field3) :=
  getFieldCore m f grid_yguards ny_inner name defv 1 true var0
    (fun ys yd ny xs xd nx var => readField2D f name ys yd ny xs xd nx var)

/-- The Field3D instantiation of GridFile::getField (getNz() = LocalNz); the
Field3D readField overload receives the same size list that getField
queried. -/
noncomputable def getField3D (m : Mesh) (zlength : ℝ) (f : GridDataFile)
    (grid_yguards ny_inner : Int) (name : String) (defv : BoutReal) (var0 : Field3) :
    Except String (Bool × Field3) :=
  getFieldCore m f grid_yguards ny_inner name defv m.LocalNz false var0
    (fun ys yd ny xs xd nx var =>
      readField3D m zlength f name (f.getSize name) ys yd ny xs xd nx var)

/-- A mesh whose interior spans the whole x-range (mxg = 0, so a
zero-x-guard file passes the window asserts) but with xstart = 1, so the
x-extrapolation loops have a non-empty range. -/
def meshC2 : Mesh where
  LocalNx := 2
  LocalNy := 3
  LocalNz := 1
  GlobalNx := 2
  GlobalNy := 3
  xstart := 1
  xend := 2
  ystart := 1
  yend := 1
  OffsetX := 0
  OffsetY := 0
  numberOfXPoints := 1

/-- A backend holding one 2-D variable "v2" of stored extents [2, 2]: no
x-guards for meshC2 (2 = GlobalNx - 2*mxg) and one y-guard band
(2 = GlobalNy - 2*myg + 1). -/
def fileC2 : GridDataFile where
  is_valid := true
  getSize := fun name => if name = "v2" then [2, 2] else []
  readScalar := fun _ => none
  readInt := fun _ => none
  getAttr := fun _ _ => none
  read2d := fun _ _ _ _ => none
  read3d := fun _ _ _ _ => none
  readVecInt := fun _ _ _ => false
  readVecReal := fun _ _ _ => false

/-- A small mesh for concrete runs of the 3-D readers (they consult only
LocalNz). -/
def mesh3W : Mesh where
  LocalNx := 2
  LocalNy := 3
  LocalNz := 4
  GlobalNx := 2
  GlobalNy := 3
  xstart := 1
  xend := 1
  ystart := 1
  yend := 1
  OffsetX := 0
  OffsetY := 0
  numberOfXPoints := 1

/-- A backend holding one 3-D variable "fdc" stored spectrally (no "nz"
entry) as DC-only data: per-row length 1, DC value 5. -/
def spectralFile : GridDataFile where
  is_valid := true
  getSize := fun name => if name = "fdc" then [2, 3, 1] else []
  readScalar := fun _ => none
  readInt := fun _ => none
  getAttr := fun _ _ => none
  read2d := fun _ _ _ _ => none
  read3d := fun _ _ _ _ => some (fun _ => 5)
  readVecInt := fun _ _ _ => false
  readVecReal := fun _ _ _ => false

/-- A backend holding the z-size marker "nz" and one real-space 3-D variable
"f3d" of stored extents [2, 3, 4], whose row value at z-index k is k. -/
noncomputable def realFile : GridDataFile where
  is_valid := true
  getSize := fun name => if name = "nz" then [1] else if name = "f3d" then [2, 3, 4] else []
  readScalar := fun _ => none
  readInt := fun _ => none
  getAttr := fun _ _ => none
  read2d := fun _ _ _ _ => none
  read3d := fun _ _ _ _ => some (fun k => (k : ℝ))
  readVecInt := fun _ _ _ => false
  readVecReal := fun _ _ _ => false

/-- C1 counterexample: on a backend that reports itself unreadable, all three
scalar getters raise a BoutException ("File cannot be read") instead of
returning a not-found result, refuting the claim that they never raise. -/
theorem scalar_get_raises_on_invalid_backend :
    getString invalidFile "title" = .error "File cannot be read" ∧
    getInt invalidFile 0 "nx" = .error "File cannot be read" ∧
    getReal invalidFile 0 "dx" = .error "File cannot be read" := by
  refine ⟨rfl, rfl, rfl⟩

/-- C1 (amended): whenever the storage backend is readable (is_valid true),
the scalar getters for string, int and BoutReal never raise, and on a failed
read they return found=false, with the string output set to "" and the
int/real outputs left at their previous values. Raising is confined to the
unreadable-backend case. -/
theorem scalar_get_no_raise_when_valid (f : GridDataFile) (name : String)
    (ival : Int) (rval : BoutReal) (hv : f.is_valid = true) :
    isOkE (getString f name) = true ∧
    isOkE (getInt f ival name) = true ∧
    isOkE (getReal f rval name) = true ∧
    (f.getAttr "" name = none → getString f name = .ok ("", false)) ∧
    (f.readInt name = none → getInt f ival name = .ok (ival, false)) ∧
    (f.readScalar name = none → getReal f rval name = .ok (rval, false)) := by
  have hv' : ¬ (f.is_valid = false) := by simp [hv]
  constructor
  · unfold getString isOkE
    rw [if_neg hv']
    cases f.getAttr "" name <;> simp
  constructor
  · unfold getInt isOkE
    rw [if_neg hv']
    cases f.readInt name <;> simp
  constructor
  · unfold getReal isOkE
    rw [if_neg hv']
    cases f.readScalar name <;> simp
  refine ⟨fun h => ?_, fun h => ?_, fun h => ?_⟩
  · unfold getString
    rw [if_neg hv', h]
  · unfold getInt
    rw [if_neg hv', h]
  · unfold getReal
    rw [if_neg hv', h]

/-- C1 witness: a concrete readable backend on which all reads fail; the
getters return not-found results without raising. -/
theorem scalar_get_no_raise_when_valid_witness :
    isOkE (getString failingReadFile "title") = true ∧
    isOkE (getInt failingReadFile 7 "nx") = true ∧
    isOkE (getReal failingReadFile 3 "dx") = true ∧
    (failingReadFile.getAttr "" "title" = none →
      getString failingReadFile "title" = .ok ("", false)) ∧
    (failingReadFile.readInt "nx" = none → getInt failingReadFile 7 "nx" = .ok (7, false)) ∧
    (failingReadFile.readScalar "dx" = none → getReal failingReadFile 3 "dx" = .ok (3, false)) :=
  scalar_get_no_raise_when_valid failingReadFile "title" 7 3 rfl

/-- C3 counterexample: on a readable backend whose block read fails, the 1-D
vector getter returns with the global-origin cursor still at the requested
offset (5,0,0), not at the canonical origin (0,0,0): the reset is skipped on
the failure path, refuting the claim that the cursor is reset whether or not
the read succeeded. -/
theorem vector_get_cursor_not_reset_on_failure :
    getVectorInt failingReadFile (9, 9, 9) "psi" 3 5 = (false, (5, 0, 0)) ∧
    getVectorReal failingReadFile (9, 9, 9) "psi" 3 5 = (false, (5, 0, 0)) ∧
    ((5, 0, 0) : Origin) ≠ originZero := by
  refine ⟨rfl, rfl, by decide⟩

/-- C3 (amended): the 1-D vector getters (int and BoutReal) return found=false
without raising on any failure; the global-origin cursor is reset to the
canonical origin exactly on success — on a failed block read it is left at
(offset,0,0), and on an unreadable backend it is untouched. -/
theorem vector_get_characterisation (f : GridDataFile) (c0 : Origin)
    (name : String) (len offset : Int) :
    (f.is_valid = false →
      getVectorInt f c0 name len offset = (false, c0) ∧
      getVectorReal f c0 name len offset = (false, c0)) ∧
    (f.is_valid = true → f.readVecInt (offset, 0, 0) name len = false →
      getVectorInt f c0 name len offset = (false, (offset, 0, 0))) ∧
    (f.is_valid = true → f.readVecReal (offset, 0, 0) name len = false →
      getVectorReal f c0 name len offset = (false, (offset, 0, 0))) ∧
    (f.is_valid = true → f.readVecInt (offset, 0, 0) name len = true →
      getVectorInt f c0 name len offset = (true, originZero)) ∧
    (f.is_valid = true → f.readVecReal (offset, 0, 0) name len = true →
      getVectorReal f c0 name len offset = (true, originZero)) := by
  unfold getVectorInt getVectorReal
  refine ⟨fun h => ?_, fun h h2 => ?_, fun h h2 => ?_, fun h h2 => ?_, fun h h2 => ?_⟩
  · simp [h]
  all_goals simp [h, h2]
  all_goals exact h2

/-- C5: under a double-null decomposition (numberOfXPoints = 2) the starting
global y read index of getField equals OffsetY + 2*grid_yguards when the
local y-offset has reached ny_inner, and OffsetY unchanged below the
branch cut; under single-null (numberOfXPoints = 1) no shift is applied. -/
theorem ys_double_null_shift (OffsetY ny_inner grid_yguards : Int) :
    computeYs 2 OffsetY ny_inner grid_yguards =
      .ok (if ny_inner ≤ OffsetY then OffsetY + 2 * grid_yguards else OffsetY) ∧
    computeYs 1 OffsetY ny_inner grid_yguards = .ok OffsetY := by
  constructor
  · by_cases h : ny_inner ≤ OffsetY <;> simp [computeYs, h]
  · rfl

/-- C4 counterexample: a concrete load where the y_boundary_guards entry of
the file is 2 and the variable's stored y-extent is 8, on a mesh with
GlobalNy = 8, myg = 1, LocalNy = 4: the loader accepts the file and uses 2
y-guard cells (window (4, yd = 2-1 = 1)), while the claimed per-axis formula
(stored extent - (global extent - 2*guard width))/2 yields 1, not 2; and with
header values 1 or 0 the very same stored dimensions are rejected outright —
so the y guard count is not determined by the stored dimensions of the
variable being read. -/
theorem y_guard_count_not_from_dimensions :
    yWindow 2 8 8 1 4 = .ok (4, 1) ∧
    (8 - (8 - 2 * 1)) / 2 = (1 : Int) ∧ (1 : Int) ≠ 2 ∧
    yWindow 1 8 8 1 4 = .error "ASSERT1 failed: field_dimensions with y-guards" ∧
    yWindow 0 8 8 1 4 = .error "ASSERT1 failed: field_dimensions without y-guards" :=
  ⟨rfl, rfl, by decide, rfl, rfl⟩

/-- C4 (amended): only the x-direction guard count is computed by comparing
the variable's stored extent to (global extent - 2*guard width): a successful
x window always carries nx_to_read = LocalNx and xd = grid_xguards - mxg with
grid_xguards the dimension-derived count. The y-direction guard count is the
y_boundary_guards value read from the file header at construction; the stored
y-extent is only checked for consistency against it. -/
theorem guard_count_window_characterisation
    (grid_yguards fd0 fd1 GlobalNx GlobalNy mxg myg LocalNx LocalNy : Int)
    (nx dx ny dy : Int) :
    (xWindow fd0 GlobalNx mxg LocalNx = .ok (nx, dx) →
      (fd0 - (GlobalNx - 2 * mxg)) % 2 = 0 ∧ 0 ≤ grid_xguardsOf fd0 GlobalNx mxg ∧
      nx = LocalNx ∧ dx = grid_xguardsOf fd0 GlobalNx mxg - mxg ∧ 0 ≤ dx) ∧
    (yWindow grid_yguards fd1 GlobalNy myg LocalNy = .ok (ny, dy) →
      (0 < grid_yguards ∧ fd1 = GlobalNy - 2 * myg + grid_yguards ∧
        ny = LocalNy ∧ dy = grid_yguards - myg) ∨
      (grid_yguards = 0 ∧ fd1 = GlobalNy - 2 * myg ∧
        ny = LocalNy - 2 * myg ∧ dy = myg)) := by
  constructor
  · intro h
    simp only [xWindow] at h
    by_cases hpar : (fd0 - (GlobalNx - 2 * mxg)) % 2 ≠ 0
    · rw [if_pos hpar] at h
      exact absurd h (by simp)
    · rw [if_neg hpar] at h
      by_cases hge : 0 ≤ grid_xguardsOf fd0 GlobalNx mxg
      · rw [if_pos hge] at h
        by_cases hxd : 0 ≤ grid_xguardsOf fd0 GlobalNx mxg - mxg
        · rw [if_pos hxd] at h
          simp only [Except.ok.injEq, Prod.mk.injEq] at h
          obtain ⟨hn, hd⟩ := h
          subst hn
          subst hd
          exact ⟨by omega, hge, rfl, rfl, hxd⟩
        · rw [if_neg hxd] at h
          exact absurd h (by simp)
      · rw [if_neg hge] at h
        by_cases hz : grid_xguardsOf fd0 GlobalNx mxg = 0
        · exact absurd (hz ▸ le_refl (0 : Int)) hge
        · rw [if_neg hz] at h
          exact absurd h (by simp)
  · intro h
    simp only [yWindow] at h
    by_cases h1 : 0 < grid_yguards
    · rw [if_pos h1] at h
      by_cases h2 : fd1 = GlobalNy - 2 * myg + grid_yguards
      · rw [if_pos h2] at h
        by_cases h3 : 0 ≤ grid_yguards - myg
        · rw [if_pos h3] at h
          simp only [Except.ok.injEq, Prod.mk.injEq] at h
          obtain ⟨hn, hd⟩ := h
          subst hn
          subst hd
          exact Or.inl ⟨h1, h2, rfl, rfl⟩
        · rw [if_neg h3] at h
          exact absurd h (by simp)
      · rw [if_neg h2] at h
        exact absurd h (by simp)
    · rw [if_neg h1] at h
      by_cases h4 : grid_yguards = 0
      · rw [if_pos h4] at h
        by_cases h5 : fd1 = GlobalNy - 2 * myg
        · rw [if_pos h5] at h
          simp only [Except.ok.injEq, Prod.mk.injEq] at h
          obtain ⟨hn, hd⟩ := h
          subst hn
          subst hd
          exact Or.inr ⟨h4, h5, rfl, rfl⟩
        · rw [if_neg h5] at h
          exact absurd h (by simp)
      · rw [if_neg h4] at h
        exact absurd h (by simp)

/-- C4 witness: concrete successful windows. On the x side, stored extent 8
with GlobalNx = 8, mxg = 1 gives the dimension-derived count 1 and window
(4, 0); on the y side the header count 2 is used as-is. -/
theorem guard_count_window_characterisation_witness :
    ((8 - (8 - 2 * 1)) % 2 = (0 : Int) ∧ 0 ≤ grid_xguardsOf 8 8 1 ∧
      (4 : Int) = 4 ∧ (0 : Int) = grid_xguardsOf 8 8 1 - 1 ∧ (0 : Int) ≤ 0) ∧
    ((0 < (2 : Int) ∧ (8 : Int) = 8 - 2 * 1 + 2 ∧ (4 : Int) = 4 ∧ (1 : Int) = 2 - 1) ∨
      ((2 : Int) = 0 ∧ (8 : Int) = 8 - 2 * 1 ∧ (4 : Int) = 4 - 2 * 1 ∧ (1 : Int) = 1)) :=
  ⟨(guard_count_window_characterisation 2 8 8 8 8 1 1 4 4 4 0 4 1).1 rfl,
   (guard_count_window_characterisation 2 8 8 8 8 1 1 4 4 4 0 4 1).2 rfl⟩

/-- C10 counterexample: a mesh with mxg = 1 whose file stores zero x-guard
cells (stored x-extent 2 = GlobalNx - 2*mxg = 4 - 2): getField raises
(the ASSERT1 on xd = -mxg fails) instead of producing the read window
(LocalNx, -mxg) = (4, -1) asserted by the claim. -/
theorem zero_xguard_file_fatal_when_mxg_positive :
    xWindow 2 4 1 4 = .error "ASSERT1 failed: xd >= 0" ∧
    xWindow 2 4 1 4 ≠ .ok (4, -1) :=
  ⟨rfl, fun hc => Except.noConfusion hc⟩

/-- C10 (amended): the grid_xguards == 0 branch of getField's x-direction
reconciliation is unreachable, since the preceding branch grid_xguards >= 0
already covers zero; consequently, whenever the file stores zero x-guard
cells the first branch applies and sets nx_to_read = LocalNx and
xd = -mxg, so for mxg > 0 the subsequent ASSERT1(xd >= 0) makes the load
fatal, and only for mxg <= 0 does the read window (LocalNx, -mxg) result. -/
theorem xguard_zero_branch_unreachable (fd0 GlobalNx mxg LocalNx : Int) :
    (¬ (¬ 0 ≤ grid_xguardsOf fd0 GlobalNx mxg ∧ grid_xguardsOf fd0 GlobalNx mxg = 0)) ∧
    (fd0 = GlobalNx - 2 * mxg →
      (0 < mxg → xWindow fd0 GlobalNx mxg LocalNx = .error "ASSERT1 failed: xd >= 0") ∧
      (mxg ≤ 0 → xWindow fd0 GlobalNx mxg LocalNx = .ok (LocalNx, -mxg))) := by
  constructor
  · unfold grid_xguardsOf
    omega
  · intro h
    subst h
    constructor
    · intro hm
      simp only [xWindow, grid_xguardsOf]
      simp only [sub_self]
      split_ifs with a b c d
      · exact absurd (by decide) a
      · exact absurd c (by omega)
      · rfl
      · exact absurd b (by omega)
      · exact absurd b (by omega)
    · intro hm
      simp only [xWindow, grid_xguardsOf]
      simp only [sub_self]
      split_ifs with a b c d
      · exact absurd (by decide) a
      · norm_num
      · exact absurd c (by omega)
      · exact absurd b (by omega)
      · exact absurd b (by omega)

/-- C10 witness: the two realisable outcomes for a zero-x-guard file at
concrete inputs: fatal for mxg = 1, window (LocalNx, 0) for mxg = 0. -/
theorem xguard_zero_branch_unreachable_witness :
    xWindow 2 4 1 4 = .error "ASSERT1 failed: xd >= 0" ∧
    xWindow 4 4 0 4 = .ok (4, -(0 : Int)) :=
  ⟨((xguard_zero_branch_unreachable 2 4 1 4).2 (by decide)).1 (by decide),
   ((xguard_zero_branch_unreachable 4 4 0 4).2 (by decide)).2 (by decide)⟩

/-- C3 witness: a concrete successful vector read resets the cursor to the
canonical origin, and concrete failed reads leave it unreset, as the
characterisation states. -/
theorem vector_get_characterisation_witness :
    (vecOkFile.is_valid = true → vecOkFile.readVecInt (5, 0, 0) "psi" 3 = true →
      getVectorInt vecOkFile (9, 9, 9) "psi" 3 5 = (true, originZero)) ∧
    vecOkFile.is_valid = true ∧ vecOkFile.readVecInt (5, 0, 0) "psi" 3 = true ∧
    getVectorInt vecOkFile (9, 9, 9) "psi" 3 5 = (true, originZero) :=
  ⟨(vector_get_characterisation vecOkFile (9, 9, 9) "psi" 3 5).2.2.2.1, rfl, rfl,
    (vector_get_characterisation vecOkFile (9, 9, 9) "psi" 3 5).2.2.2.1 rfl rfl⟩

/-- Characterisation of the inner y-loop: when every row read succeeds, the
loop succeeds and deposits row (jx, jy) at column (jx + dx, jy + dy) for the
jy it visits, leaving every other cell of the field untouched. -/
theorem rowLoopY_char (rowOut : Int → Int → Option (Int → BoutReal))
    (R : Int → Int → Int → BoutReal) (len dx dy jx : Int)
    (hrow : ∀ jy, rowOut jx jy = some (fun c => R jx jy c)) :
    ∀ (n : Nat) (jy0 : Int) (var : Field3),
      rowLoopY rowOut len dx dy jx jy0 n var =
        some (fun a b c =>
          if a = jx + dx ∧ jy0 + dy ≤ b ∧ b < jy0 + dy + n ∧ 0 ≤ c ∧ c < len
          then R jx (b - dy) c else var a b c) := by
  intro n
  induction n with
  | zero =>
    intro jy0 var
    simp only [rowLoopY]
    congr 1
    funext a b c
    rw [if_neg (by push_cast; omega)]
  | succ n ih =>
    intro jy0 var
    simp only [rowLoopY, hrow]
    rw [ih (jy0 + 1) (writeRow var (jx + dx) (jy0 + dy) len (fun c => R jx jy0 c))]
    congr 1
    funext a b c
    by_cases h1 : a = jx + dx ∧ jy0 + 1 + dy ≤ b ∧ b < jy0 + 1 + dy + (n : Int) ∧ 0 ≤ c ∧ c < len
    · rw [if_pos h1, if_pos (by push_cast; omega)]
    · rw [if_neg h1]
      unfold writeRow
      by_cases h2 : a = jx + dx ∧ b = jy0 + dy ∧ 0 ≤ c ∧ c < len
      · rw [if_pos h2, if_pos (by push_cast; omega)]
        have hb : b - dy = jy0 := by omega
        rw [hb]
      · rw [if_neg h2, if_neg (by push_cast; omega)]

/-- Characterisation of the outer x-loop: when every row read succeeds, the
double loop succeeds and the resulting field holds row (jx, jy) translated by
(dx, dy) on the whole read window, and the initial contents elsewhere. -/
theorem rowLoopX_char (rowOut : Int → Int → Option (Int → BoutReal))
    (R : Int → Int → Int → BoutReal) (len dx dy yread : Int) (ysize : Nat)
    (hrow : ∀ jx jy, rowOut jx jy = some (fun c => R jx jy c)) :
    ∀ (n : Nat) (jx0 : Int) (var : Field3),
      rowLoopX rowOut len dx dy yread ysize jx0 n var =
        some (fun a b c =>
          if jx0 + dx ≤ a ∧ a < jx0 + dx + n ∧ yread + dy ≤ b ∧ b < yread + dy + ysize ∧
              0 ≤ c ∧ c < len
          then R (a - dx) (b - dy) c else var a b c) := by
  intro n
  induction n with
  | zero =>
    intro jx0 var
    simp only [rowLoopX]
    congr 1
    funext a b c
    rw [if_neg (by push_cast; omega)]
  | succ n ih =>
    intro jx0 var
    simp only [rowLoopX,
      rowLoopY_char rowOut R len dx dy jx0 (fun jy => hrow jx0 jy) ysize yread]
    rw [ih (jx0 + 1) _]
    congr 1
    funext a b c
    by_cases h1 : jx0 + 1 + dx ≤ a ∧ a < jx0 + 1 + dx + (n : Int) ∧ yread + dy ≤ b ∧
        b < yread + dy + (ysize : Int) ∧ 0 ≤ c ∧ c < len
    · rw [if_pos h1, if_pos (by push_cast; omega)]
    · rw [if_neg h1]
      by_cases h2 : a = jx0 + dx ∧ yread + dy ≤ b ∧ b < yread + dy + (ysize : Int) ∧
          0 ≤ c ∧ c < len
      · rw [if_pos h2, if_pos (by push_cast; omega)]
        have ha : a - dx = jx0 := by omega
        rw [ha]
      · rw [if_neg h2, if_neg (by push_cast; omega)]

/-- A domain length of 2*pi spans exactly one period: ROUND(TWOPI/zlength)
is 1. -/
theorem zperiodOf_two_pi : zperiodOf (2 * Real.pi) = 1 := by
  unfold zperiodOf
  rw [div_self (by positivity), round_one]

/-- The assembled spectrum has ncz/2 + 1 entries. -/
theorem fdataList_length (zdata : Int → BoutReal) (maxmode zperiod ncz : Int) :
    (fdataList zdata maxmode zperiod ncz).length = (ncz / 2 + 1).toNat := by
  unfold fdataList
  rw [List.length_map, List.length_range]

/-- Entry i of the assembled spectrum is buildSpectrum applied to i, for
indices inside the array. -/
theorem fdataList_getD (zdata : Int → BoutReal) (maxmode zperiod ncz : Int) (i : ℕ)
    (hi : i < (ncz / 2 + 1).toNat) :
    (fdataList zdata maxmode zperiod ncz).getD i 0 =
      buildSpectrum zdata maxmode zperiod i := by
  unfold fdataList
  rw [List.getD_eq_getElem?_getD, List.getElem?_map, List.getElem?_range hi]
  rfl

/-- Inverse transform of a DC-only spectrum (maxmode 0): every sample equals
the DC value, for any positive zperiod. -/
theorem irfftSpec_dc (zdata : Int → BoutReal) (zperiod ncz : Int)
    (hzp : 1 ≤ zperiod) (hncz : 0 ≤ ncz) (j : Int) :
    irfftSpec (fdataList zdata 0 zperiod ncz) ncz j = zdata 0 := by
  unfold irfftSpec
  rw [fdataList_length]
  rw [Finset.sum_eq_single_of_mem 0 (Finset.mem_range.mpr (by omega))]
  · rw [fdataList_getD zdata 0 zperiod ncz 0 (by omega)]
    simp [buildSpectrum, Complex.exp_zero]
  · intro i hi hne
    rw [fdataList_getD zdata 0 zperiod ncz i (Finset.mem_range.mp hi)]
    have h1 : ¬ ((i : Int) = 0) := by exact_mod_cast hne
    have hipos : (0 : Int) < (i : Int) := by omega
    have h2 : ¬ ((i : Int) * zperiod ≤ 0) := not_le.mpr (mul_pos hipos (by omega))
    simp [buildSpectrum, h1, h2]

/-- C6: the complex spectrum assembled per (x, y) row by the spectral reader
before the inverse transform has length floor(localZ/2) + 1; entry 0 is the
stored DC value; entry i >= 1 is the complex pair
(stored[2*i*zperiod - 1], stored[2*i*zperiod]) when i*zperiod <= maxmode and
zero otherwise; and zperiod is the nearest integer to 2*pi divided by the
domain length in the periodic coordinate. -/
theorem spectrum_assembly (zdata : Int → BoutReal) (zlength : ℝ) (maxmode ncz : Int)
    (hncz : 0 ≤ ncz) :
    zperiodOf zlength = round (2 * Real.pi / zlength) ∧
    ((fdataList zdata maxmode (zperiodOf zlength) ncz).length : Int) = ncz / 2 + 1 ∧
    (fdataList zdata maxmode (zperiodOf zlength) ncz).getD 0 0 = ((zdata 0 : ℝ) : ℂ) ∧
    (∀ i : ℕ, 1 ≤ i → (i : Int) ≤ ncz / 2 →
      (fdataList zdata maxmode (zperiodOf zlength) ncz).getD i 0 =
        if (i : Int) * zperiodOf zlength ≤ maxmode then
          (⟨zdata (2 * ((i : Int) * zperiodOf zlength) - 1),
            zdata (2 * ((i : Int) * zperiodOf zlength))⟩ : ℂ)
        else 0) := by
  refine ⟨rfl, ?_, ?_, ?_⟩
  · rw [fdataList_length]
    omega
  · rw [fdataList_getD _ _ _ _ 0 (by omega)]
    simp [buildSpectrum]
  · intro i h1 h2
    rw [fdataList_getD _ _ _ _ i (by omega)]
    unfold buildSpectrum
    rw [if_neg (by omega)]

/-- C6 witness: a concrete spectrum: stored row k maps to value k, maxmode 1,
localZ 4, domain length 2*pi (so zperiod 1): entry 1 is the stored pair
(zdata 1, zdata 2) = (1, 2). -/
theorem spectrum_assembly_witness :
    ((fdataList (fun k => (k : ℝ)) 1 (zperiodOf (2 * Real.pi)) 4).length : Int) = 4 / 2 + 1 ∧
    (fdataList (fun k => (k : ℝ)) 1 (zperiodOf (2 * Real.pi)) 4).getD 1 0 =
      (⟨(1 : ℝ), (2 : ℝ)⟩ : ℂ) := by
  have h := spectrum_assembly (fun k => (k : ℝ)) (2 * Real.pi) 1 4 (by norm_num)
  refine ⟨h.2.1, ?_⟩
  have h4 := h.2.2.2 1 (by norm_num) (by norm_num)
  rw [h4, zperiodOf_two_pi]
  norm_num

/-- C9: a 3-D variable stored spectrally as DC-only data (stored row length 1,
hence maxmode = 0), read back with any zperiod >= 1, produces in every (x, y)
row of the window a value uniform across the periodic axis and equal to that
row's stored DC value. -/
theorem fft_dc_only_uniform (m : Mesh) (zlength : ℝ) (f : GridDataFile) (name : String)
    (a b : Int) (R : Int → Int → Int → BoutReal)
    (yread ydest ysize xread xdest xsize : Int) (var : Field3)
    (hsize : f.getSize name = [a, b, 1])
    (hread : ∀ jx jy, f.read3d jx jy name 1 = some (fun c => R jx jy c))
    (hzp : 1 ≤ zperiodOf zlength) (hncz : 0 ≤ m.LocalNz)
    (hargs : 0 ≤ yread ∧ 0 ≤ ydest ∧ 0 ≤ ysize ∧ 0 ≤ xread ∧ 0 ≤ xdest ∧ 0 ≤ xsize) :
    ∀ jx jy z, xread ≤ jx → jx < xread + xsize → yread ≤ jy → jy < yread + ysize →
      0 ≤ z → z < m.LocalNz →
      Option.map (fun v => v (jx + (xdest - xread)) (jy + (ydest - yread)) z)
          (readgrid_3dvar_fft m zlength f name yread ydest ysize xread xdest xsize var) =
        some (R jx jy 0) := by
  intro jx jy z hx1 hx2 hy1 hy2 hz1 hz2
  simp only [readgrid_3dvar_fft, hsize]
  rw [if_neg (by omega)]
  rw [if_neg (by simp)]
  simp only [List.getD_cons_succ, List.getD_cons_zero]
  rw [rowLoopX_char
    (fun jx jy => Option.map
      (fun zdata j => irfftSpec (fdataList zdata ((1 - 1) / 2) (zperiodOf zlength) m.LocalNz)
        m.LocalNz j) (f.read3d jx jy name 1))
    (fun jx jy c => irfftSpec
      (fdataList (fun k => R jx jy k) ((1 - 1) / 2) (zperiodOf zlength) m.LocalNz)
      m.LocalNz c)
    m.LocalNz (xdest - xread) (ydest - yread) yread ysize.toNat
    (fun jx jy => by simp only [hread, Option.map_some']) xsize.toNat xread var]
  rw [Option.map_some']
  beta_reduce
  rw [if_pos (by
    refine ⟨by omega, ?_, by omega, ?_, hz1, hz2⟩
    · rw [Int.toNat_of_nonneg hargs.2.2.2.2.2]
      omega
    · rw [Int.toNat_of_nonneg hargs.2.2.1]
      omega)]
  have e1 : jx + (xdest - xread) - (xdest - xread) = jx := by ring
  have e2 : jy + (ydest - yread) - (ydest - yread) = jy := by ring
  rw [e1, e2]
  rw [show ((1 : Int) - 1) / 2 = 0 from rfl]
  rw [irfftSpec_dc (fun k => R jx jy k) (zperiodOf zlength) m.LocalNz hzp hncz z]

/-- C9 witness: the concrete DC-only variable "fdc" (DC value 5, stored row
length 1) on a mesh with LocalNz = 4 and domain length 2*pi (zperiod 1):
sample z = 2 of the destination row equals 5. -/
theorem fft_dc_only_uniform_witness :
    Option.map (fun v => v (0 + (0 - 0)) (0 + (0 - 0)) 2)
        (readgrid_3dvar_fft mesh3W (2 * Real.pi) spectralFile "fdc" 0 0 1 0 0 1
          (fun _ _ _ => 0)) = some 5 := by
  have h := fft_dc_only_uniform mesh3W (2 * Real.pi) spectralFile "fdc" 2 3
    (fun _ _ _ => (5 : ℝ)) 0 0 1 0 0 1 (fun _ _ _ => 0) rfl (fun _ _ => rfl)
    (le_of_eq zperiodOf_two_pi.symm) (by decide)
    (by refine ⟨le_refl 0, le_refl 0, by decide, le_refl 0, le_refl 0, by decide⟩)
  exact h 0 0 2 (by decide) (by decide) (by decide) (by decide) (by decide) (by decide)

/-- C7: for a 3-D variable read through the real-space path (the file defines
the explicit z-size marker "nz"): a stored z-extent differing from the local
LocalNz raises a fatal BoutException — no warning, no resampling, no
found=false; when the two are equal, each (x, y) row of length localZ is
copied directly into the destination. -/
theorem real_space_read_exact (m : Mesh) (zlength : ℝ) (f : GridDataFile) (name : String)
    (a b c : Int) (R : Int → Int → Int → BoutReal) (ys yd ny xs xd nx : Int) (var : Field3)
    (hnz : hasVar f "nz" = true)
    (hsize : f.getSize name = [a, b, c])
    (hread : ∀ jx jy, f.read3d jx jy name c = some (fun k => R jx jy k))
    (hargs : 0 ≤ ys ∧ 0 ≤ yd ∧ 0 ≤ ny ∧ 0 ≤ xs ∧ 0 ≤ xd ∧ 0 ≤ nx) :
    (c ≠ m.LocalNz →
      readField3D m zlength f name (f.getSize name) ys yd ny xs xd nx var =
        .error "3D variable has incorrect size") ∧
    (c = m.LocalNz →
      ∀ jx jy z, xs ≤ jx → jx < xs + nx → ys ≤ jy → jy < ys + ny → 0 ≤ z → z < c →
        Except.map (fun v => v (jx + (xd - xs)) (jy + (yd - ys)) z)
            (readField3D m zlength f name (f.getSize name) ys yd ny xs xd nx var) =
          .ok (R jx jy z)) := by
  constructor
  · intro hne
    simp only [readField3D, hnz, hsize, if_true]
    rw [if_pos (by simpa using hne)]
  · intro heq jx jy z hx1 hx2 hy1 hy2 hz1 hz2
    simp only [readField3D, hnz, hsize, if_true]
    rw [if_neg (by simpa using heq)]
    simp only [readgrid_3dvar_real, hsize]
    rw [if_neg (by omega)]
    rw [if_neg (by simp)]
    simp only [List.getD_cons_succ, List.getD_cons_zero]
    rw [rowLoopX_char (fun jx jy => f.read3d jx jy name c) R c (xd - xs) (yd - ys) ys
      ny.toNat hread nx.toNat xs var]
    simp only [Except.map]
    rw [if_pos (by
      refine ⟨by omega, ?_, by omega, ?_, hz1, hz2⟩
      · rw [Int.toNat_of_nonneg hargs.2.2.2.2.2]
        omega
      · rw [Int.toNat_of_nonneg hargs.2.2.1]
        omega)]
    have e1 : jx + (xd - xs) - (xd - xs) = jx := by ring
    have e2 : jy + (yd - ys) - (yd - ys) = jy := by ring
    rw [e1, e2]

/-- C7 witness: the concrete real-space variable "f3d" (stored extents
[2,3,4], row value at z-index k equal to k) on a mesh with LocalNz = 4: the
value copied to destination (1,1) at z = 3 is 3. -/
theorem real_space_read_exact_witness :
    Except.map (fun v => v (1 + (0 - 0)) (1 + (0 - 0)) 3)
        (readField3D mesh3W (2 * Real.pi) realFile "f3d" (realFile.getSize "f3d")
          0 0 3 0 0 2 (fun _ _ _ => 0)) = .ok ((3 : Int) : ℝ) := by
  have h := (real_space_read_exact mesh3W (2 * Real.pi) realFile "f3d" 2 3 4
    (fun _ _ k => (k : ℝ)) 0 0 3 0 0 2 (fun _ _ _ => 0) rfl rfl (fun _ _ => rfl)
    (by refine ⟨le_refl 0, le_refl 0, by decide, le_refl 0, le_refl 0, by decide⟩)).2
    (by decide)
  exact h 1 1 3 (by decide) (by decide) (by decide) (by decide) (by decide) (by decide)

/-- C8: when a variable is absent from storage (its reported size is empty),
getField returns found=false and every cell of the handle holds the supplied
default, for either target kind and any reader. -/
theorem getfield_absent_default (m : Mesh) (f : GridDataFile) (gyg nyi : Int)
    (name : String) (defv : BoutReal) (nz : Int) (is2D : Bool) (var0 : Field3)
    (readF : Int → Int → Int → Int → Int → Int → Field3 → Except String Field3)
    (hv : f.is_valid = true) (habs : f.getSize name = []) :
    getFieldCore m f gyg nyi name defv nz is2D var0 readF =
      .ok (false, fun _ _ _ => defv) := by
  simp [getFieldCore, hv, habs]

/-- C8 witness: a concrete absent variable on a readable backend: found=false
and the handle is uniformly the default 3. -/
theorem getfield_absent_default_witness :
    getFieldCore mesh3W failingReadFile 0 0 "absent" 3 1 true (fun _ _ _ => 0)
      (fun _ _ _ _ _ _ v => .ok v) = .ok (false, fun _ _ _ => (3 : BoutReal)) :=
  getfield_absent_default mesh3W failingReadFile 0 0 "absent" 3 1 true (fun _ _ _ => 0)
    (fun _ _ _ _ _ _ v => .ok v) rfl rfl

/-- The x-extrapolation alone establishes the x-guard property: below xstart
the field repeats the xstart plane, above xend the xend plane. -/
theorem xExtrap_guard (m : Mesh) (nz : Int) (g : Field3) (hxe : m.xstart ≤ m.xend) :
    ∀ x y z, 0 ≤ y → y < m.LocalNy → 0 ≤ z → z < nz →
      (0 ≤ x → x < m.xstart → xExtrap m nz g x y z = xExtrap m nz g m.xstart y z) ∧
      (m.xend < x → x < m.LocalNx → xExtrap m nz g x y z = xExtrap m nz g m.xend y z) := by
  intro x y z hy1 hy2 hz1 hz2
  constructor
  · intro h1 h2
    simp only [xExtrap]
    split_ifs <;> first | rfl | (exfalso; omega)
  · intro h1 h2
    simp only [xExtrap]
    split_ifs <;> first | rfl | (exfalso; omega)

/-- The y-extrapolation only remaps the y-coordinate, uniformly in x: inside
the x/z bounds it reads the same column at a clamped y-index. -/
theorem yExtrap_column (m : Mesh) (nz : Int) (h : Field3)
    (hys : 0 ≤ m.ystart) (hye : m.ystart ≤ m.yend) :
    ∀ x y z, yExtrap m nz h x y z =
      if 0 ≤ x ∧ x < m.LocalNx ∧ 0 ≤ z ∧ z < nz then
        h x (if m.yend < y ∧ y < m.LocalNy then m.yend
             else if 0 ≤ y ∧ y < m.ystart then m.ystart else y) z
      else h x y z := by
  intro x y z
  simp only [yExtrap]
  split_ifs <;> first | rfl | (exfalso; omega)

/-- Combined extrapolation: the x-guard property survives the subsequent
y-extrapolation, since the latter remaps y uniformly in x. -/
theorem extrap_combined (m : Mesh) (nz : Int) (g : Field3)
    (hxs : 0 ≤ m.xstart) (hxe : m.xstart ≤ m.xend)
    (hys : 0 ≤ m.ystart) (hye : m.ystart ≤ m.yend) (hyl : m.yend < m.LocalNy)
    (hxl : m.xend < m.LocalNx) :
    ∀ x y z, 0 ≤ y → y < m.LocalNy → 0 ≤ z → z < nz →
      (0 ≤ x → x < m.xstart →
        yExtrap m nz (xExtrap m nz g) x y z = yExtrap m nz (xExtrap m nz g) m.xstart y z) ∧
      (m.xend < x → x < m.LocalNx →
        yExtrap m nz (xExtrap m nz g) x y z = yExtrap m nz (xExtrap m nz g) m.xend y z) := by
  intro x y z hy1 hy2 hz1 hz2
  have hw : 0 ≤ (if m.yend < y ∧ y < m.LocalNy then m.yend
      else if 0 ≤ y ∧ y < m.ystart then m.ystart else y) ∧
      (if m.yend < y ∧ y < m.LocalNy then m.yend
      else if 0 ≤ y ∧ y < m.ystart then m.ystart else y) < m.LocalNy := by
    split_ifs <;> omega
  constructor
  · intro h1 h2
    have hx2 : x < m.LocalNx := by omega
    have hxsl : m.xstart < m.LocalNx := by omega
    rw [yExtrap_column m nz (xExtrap m nz g) hys hye x y z,
      yExtrap_column m nz (xExtrap m nz g) hys hye m.xstart y z]
    rw [if_pos (And.intro h1 (And.intro hx2 (And.intro hz1 hz2))),
      if_pos (And.intro hxs (And.intro hxsl (And.intro hz1 hz2)))]
    exact (xExtrap_guard m nz g hxe x _ z hw.1 hw.2 hz1 hz2).1 h1 h2
  · intro h1 h2
    have h0x : (0 : Int) ≤ x := by omega
    have h0e : (0 : Int) ≤ m.xend := by omega
    rw [yExtrap_column m nz (xExtrap m nz g) hys hye x y z,
      yExtrap_column m nz (xExtrap m nz g) hys hye m.xend y z]
    rw [if_pos (And.intro h0x (And.intro h2 (And.intro hz1 hz2))),
      if_pos (And.intro h0e (And.intro hxl (And.intro hz1 hz2)))]
    exact (xExtrap_guard m nz g hxe x _ z hw.1 hw.2 hz1 hz2).2 h1 h2

/-- C2: a successfully loaded field (either target kind, any reader) whose
file stores no x-guard cells (stored x-extent equal to GlobalNx - 2*mxg)
satisfies, for every y and z in range: below xstart the handle repeats the
xstart plane, and above xend the xend plane. -/
theorem getfield_xguard_extrapolation (m : Mesh) (f : GridDataFile) (gyg nyi : Int)
    (name : String) (defv : BoutReal) (nz : Int) (is2D : Bool) (var0 : Field3)
    (readF : Int → Int → Int → Int → Int → Int → Field3 → Except String Field3)
    (fld : Field3)
    (hxs : 0 ≤ m.xstart) (hxe : m.xstart ≤ m.xend)
    (hys : 0 ≤ m.ystart) (hye : m.ystart ≤ m.yend) (hyl : m.yend < m.LocalNy)
    (hxl : gyg = 0 → m.xend < m.LocalNx)
    (hnoxg : (f.getSize name).getD 0 0 =
      m.GlobalNx - 2 * ((m.LocalNx - (m.xend - m.xstart + 1)) / 2))
    (hok : getFieldCore m f gyg nyi name defv nz is2D var0 readF = .ok (true, fld)) :
    ∀ x y z, 0 ≤ y → y < m.LocalNy → 0 ≤ z → z < nz →
      (0 ≤ x → x < m.xstart → fld x y z = fld m.xstart y z) ∧
      (m.xend < x → x < m.LocalNx → fld x y z = fld m.xend y z) := by
  simp only [getFieldCore] at hok
  by_cases hv : f.is_valid = false
  · rw [if_pos hv] at hok
    simp at hok
  rw [if_neg hv] at hok
  by_cases h0 : (f.getSize name).length = 0
  · rw [if_pos h0] at hok
    simp at hok
  rw [if_neg h0] at hok
  by_cases h1 : (f.getSize name).length = 1
  · rw [if_pos h1] at hok
    by_cases h1a : (f.getSize name).getD 0 0 ≠ 1
    · rw [if_pos h1a] at hok
      simp at hok
    rw [if_neg h1a] at hok
    cases hs : f.readScalar name with
    | none =>
      rw [hs] at hok
      simp at hok
    | some rval =>
      rw [hs] at hok
      simp only [Except.ok.injEq, Prod.mk.injEq] at hok
      obtain ⟨-, hfld⟩ := hok
      subst hfld
      intro x y z hy1 hy2 hz1 hz2
      exact ⟨fun _ _ => rfl, fun _ _ => rfl⟩
  rw [if_neg h1] at hok
  by_cases h3 : (f.getSize name).length = 3 ∧ is2D = true
  · rw [if_pos h3] at hok
    simp at hok
  rw [if_neg h3] at hok
  by_cases h4 : 4 ≤ (f.getSize name).length
  · rw [if_pos h4] at hok
    simp at hok
  rw [if_neg h4] at hok
  by_cases hpx : (m.LocalNx - (m.xend - m.xstart + 1)) % 2 ≠ 0
  · rw [if_pos hpx] at hok
    simp at hok
  rw [if_neg hpx] at hok
  by_cases hpy : (m.LocalNy - (m.yend - m.ystart + 1)) % 2 ≠ 0
  · rw [if_pos hpy] at hok
    simp at hok
  rw [if_neg hpy] at hok
  split at hok
  · simp at hok
  split at hok
  · simp at hok
  split at hok
  · simp at hok
  split at hok
  · simp at hok
  rw [if_pos hnoxg] at hok
  by_cases hg0 : gyg = 0
  · rw [if_pos hg0] at hok
    simp only [Except.ok.injEq, Prod.mk.injEq] at hok
    obtain ⟨-, hfld⟩ := hok
    subst hfld
    exact extrap_combined m nz _ hxs hxe hys hye hyl (hxl hg0)
  · rw [if_neg hg0] at hok
    simp only [Except.ok.injEq, Prod.mk.injEq] at hok
    obtain ⟨-, hfld⟩ := hok
    subst hfld
    intro x y z hy1 hy2 hz1 hz2
    exact xExtrap_guard m nz _ hxe x y z hy1 hy2 hz1 hz2

/-- C2 witness: a concrete successful load of the zero-x-guard 2-D variable
"v2" on meshC2 (the reader deposits value x at column x): the guard column
x = 0 of the returned handle equals the interior column xstart = 1. -/
theorem getfield_xguard_extrapolation_witness :
    getFieldCore meshC2 fileC2 1 0 "v2" 0 1 true (fun _ _ _ => 0)
        (fun _ _ _ _ _ _ _ => .ok (fun a _ _ => (a : BoutReal))) =
      .ok (true, xExtrap meshC2 1 (fun a _ _ => (a : BoutReal))) ∧
    xExtrap meshC2 1 (fun a _ _ => (a : BoutReal)) 0 1 0 =
      xExtrap meshC2 1 (fun a _ _ => (a : BoutReal)) 1 1 0 := by
  have hok : getFieldCore meshC2 fileC2 1 0 "v2" 0 1 true (fun _ _ _ => 0)
      (fun _ _ _ _ _ _ _ => .ok (fun a _ _ => (a : BoutReal))) =
      .ok (true, xExtrap meshC2 1 (fun a _ _ => (a : BoutReal))) := by
    rfl
  refine ⟨hok, ?_⟩
  have h := getfield_xguard_extrapolation meshC2 fileC2 1 0 "v2" 0 1 true
    (fun _ _ _ => 0) (fun _ _ _ _ _ _ _ => .ok (fun a _ _ => (a : BoutReal)))
    (xExtrap meshC2 1 (fun a _ _ => (a : BoutReal)))
    (by decide) (by decide) (by decide) (by decide) (by decide)
    (fun hc => absurd hc (by decide)) (by decide) hok
  exact (h 0 1 0 (by decide) (by decide) (by decide) (by decide)).1 (by decide) (by decide)
